import Mathlib

/-!
Verification development for the neatspace backend's authentication and
session-lifecycle subsystem.  The Go source is shallowly embedded: machine
time (time.Time, time.Duration) is modeled in whole seconds as Int, UUIDs
as strings (uuid.Nil is the empty string), []byte secrets as lists of
naturals, and each service operation becomes a pure function over explicit
state, returning Except values where the Go code returns errors.
External cryptographic primitives (SHA-256, the password KDF, the random
URL-safe token generator) are modeled as abstract function parameters: the
claims proved here never depend on their internals, only on how the
service composes them.
-/

namespace Neatspace

/-- uuid.UUID, modeled as a string; uuid.Nil is the empty string. -/
abbrev Uuid := String

/-- time.Time as Unix seconds. -/
abbrev Instant := Int

/-- time.Duration, in whole seconds. -/
abbrev GoDuration := Int

/-! ## JWT claim values

Claim values as they flow through the jwx v1 token object.  The payload of
Sign is JSON-marshalled and unmarshalled, so payload values are JSON-style
values (strings, numbers, booleans); the codec itself additionally stores
absolute times, and the buggy call site in Sign passes a time.Duration,
which the model keeps as a distinct constructor because Go's type system
distinguishes time.Duration from int64 and from time.Time. -/

inductive CVal where
  | str (s : String)
  | num (n : Int)
  | time (t : Instant)
  | dur (d : GoDuration)
  | boolv (b : Bool)
deriving DecidableEq, Repr

/-- The claim set of a jwx token: a key-value map, represented as an
association list whose update operation removes the previous binding. -/
abbrev Claims := List (String × CVal)

def getClaim : Claims → String → Option CVal
  | [], _ => none
  | kv :: rest, k => if kv.1 = k then some kv.2 else getClaim rest k

def setClaim (c : Claims) (k : String) (v : CVal) : Claims :=
  (k, v) :: c.filter (fun kv => kv.1 ≠ k)

/-- jwx v1 types.NumericDate.Accept: the Go type switch accepts time.Time
and the primitive numeric types (float64, int64, ..., json.Number).
time.Duration is a distinct named type with no case in the switch, so a
Duration value is rejected with an error. -/
def numericDateAccept : CVal → Option Instant
  | .time t => some t
  | .num n => some n
  | _ => none

/-- jwx v1 string-valued registered claims (iss, sub, jti) and the audience
StringList accept a string and reject other types. -/
def stringAccept : CVal → Option String
  | .str s => some s
  | _ => none

/-- jwx v1 (*stdToken).Set: registered claim keys coerce their value
through a typed acceptor; if the acceptor rejects the value, Set returns an
error and the claim set is unchanged (every call site in this repository
discards that error).  Any other key is stored verbatim as a private
claim. -/
def tokenSet (c : Claims) (k : String) (v : CVal) : Claims :=
  if k = "exp" ∨ k = "iat" ∨ k = "nbf" then
    match numericDateAccept v with
    | some t => setClaim c k (.time t)
    | none => c
  else if k = "iss" ∨ k = "sub" ∨ k = "jti" ∨ k = "aud" then
    match stringAccept v with
    | some s => setClaim c k (.str s)
    | none => c
  else
    setClaim c k v

/-- The registered JWT claim names handled by typed setters in jwx v1. -/
def registeredClaimKeys : List String :=
  ["iss", "sub", "aud", "exp", "nbf", "iat", "jti"]

/-- apputils.JWTConfig (pkg/apputils/jwt.go).  The signing algorithm is
fixed to HS256 everywhere in the repository and is not modeled. -/
structure JWTConfig where
  secretKey : List Nat
  accessTokenExpiry : GoDuration
  refreshTokenExpiry : GoDuration
  issuer : String
deriving DecidableEq, Repr

/-- A signed compact token: its claim set together with the key it was
signed with (standing in for the HMAC signature: verification against a
key succeeds exactly when the keys coincide). -/
structure SignedToken where
  claims : Claims
  signedWith : List Nat
deriving DecidableEq, Repr

/-- Claim set built by JWTGenerator.Sign (pkg/apputils/jwt.go lines 45-76):
issuer, issued-at, then an attempt to set the expiration to
config.AccessTokenExpiry -- a time.Duration, which the jwx setter rejects
(the error is discarded at the call site), then typ "access", the subject
when non-empty, and finally the JSON-flattened payload fields. -/
def signClaims (cfg : JWTConfig) (now : Instant) (payload : List (String × CVal))
    (subject : String) : Claims :=
  let c := tokenSet [] "iss" (.str cfg.issuer)
  let c := tokenSet c "iat" (.time now)
  let c := tokenSet c "exp" (.dur cfg.accessTokenExpiry)
  let c := tokenSet c "typ" (.str "access")
  let c := if subject ≠ "" then tokenSet c "sub" (.str subject) else c
  payload.foldl (fun acc kv => tokenSet acc kv.1 kv.2) c

/-- JWTGenerator.Sign. -/
def sign (cfg : JWTConfig) (now : Instant) (payload : List (String × CVal))
    (subject : String) : Except String SignedToken :=
  if cfg.secretKey = [] then .error "secret key is required"
  else .ok ⟨signClaims cfg now payload subject, cfg.secretKey⟩

/-- Claim set built by JWTGenerator.GenerateRefreshTokenJWT
(pkg/apputils/jwt.go lines 80-99): here the expiration is correctly set to
now.Add(RefreshTokenExpiry). -/
def refreshClaims (cfg : JWTConfig) (now : Instant) (uid audience refreshTokenID : String) :
    Claims :=
  let c := tokenSet [] "iss" (.str cfg.issuer)
  let c := tokenSet c "iat" (.time now)
  let c := tokenSet c "exp" (.time (now + cfg.refreshTokenExpiry))
  let c := tokenSet c "sub" (.str uid)
  let c := tokenSet c "aud" (.str audience)
  let c := tokenSet c "typ" (.str "refresh")
  tokenSet c "jti" (.str refreshTokenID)

/-- JWTGenerator.GenerateRefreshTokenJWT. -/
def generateRefreshTokenJWT (cfg : JWTConfig) (now : Instant)
    (uid audience refreshTokenID : String) : Except String SignedToken :=
  if cfg.secretKey = [] then .error "secret key is required"
  else .ok ⟨refreshClaims cfg now uid audience refreshTokenID, cfg.secretKey⟩

/-- jwx v1 jwt.Validate with default options: exp, iat and nbf are each
checked only when the corresponding claim is present.  exp fails once the
current time is no longer strictly before it; iat and nbf fail while they
are still in the future. -/
def claimsTimeValid (c : Claims) (now : Instant) : Bool :=
  (match getClaim c "exp" with
   | some (.time t) => decide (now < t)
   | _ => true) &&
  (match getClaim c "iat" with
   | some (.time t) => decide (t ≤ now)
   | _ => true) &&
  (match getClaim c "nbf" with
   | some (.time t) => decide (t ≤ now)
   | _ => true)

/-- JWTGenerator.ParseAndValidate (pkg/apputils/jwt.go lines 103-118):
verify the signature against the configured key, validate the standard
temporal claims, and return the claim map. -/
def parseAndValidate (cfg : JWTConfig) (now : Instant) (tok : SignedToken) :
    Except String Claims :=
  if tok.signedWith ≠ cfg.secretKey then .error "parse/validate jwt: signature mismatch"
  else if claimsTimeValid tok.claims now then .ok tok.claims
  else .error "parse/validate jwt: validation failed"

/-! ## Domain entities

The auth entity structs (internal/domain/auth/entities) are used by the
service and repository exactly through the fields below; optional client
metadata fields that the sign-in flow leaves at their zero value are given
defaults. -/

/-- The OneTimeTokenSubject purpose tag; the only constant in use is
OneTimeTokenSubjectEmailVerification. -/
inductive OneTimeTokenSubject where
  | emailVerification
deriving DecidableEq, Repr

/-- authEntity.OneTimeToken. -/
structure OneTimeToken where
  id : Uuid
  userID : Option Uuid
  subject : OneTimeTokenSubject
  tokenHash : String
  relatesTo : String
  metadata : List (String × String) := []
  createdAt : Instant := 0
  expiresAt : Instant
  lastSentAt : Option Instant := none
deriving DecidableEq, Repr

/-- entities.UserEntity (internal/domain/user/entities): the fields the
authentication flows read. -/
structure UserEntity where
  id : Uuid
  displayName : String := ""
  username : Option String := none
  email : String
  emailVerifiedAt : Option Instant := none
deriving DecidableEq, Repr

/-- AuthService.isEmailVerified inspects candidate fields by reflection
(auth.go lines 349-396): UserEntity has none of the boolean-style fields,
so the check reduces to the pointer-typed EmailVerifiedAt field being
non-nil. -/
def isEmailVerified (u : UserEntity) : Bool :=
  u.emailVerifiedAt.isSome

/-- authEntity.UserPasswordEntity. -/
structure UserPasswordEntity where
  userID : Uuid
  passwordHash : String
  createdAt : Instant := 0
  updatedAt : Option Instant := none
deriving DecidableEq, Repr

/-- authEntity.SessionEntity; the client metadata columns stay at their
zero values in the sign-in flow. -/
structure SessionEntity where
  id : Uuid
  userID : Uuid
  tokenHash : String
  userAgent : Option String := none
  deviceName : Option String := none
  deviceFingerprint : Option String := none
  ipAddress : Option String := none
  expiresAt : Instant
  createdAt : Instant := 0
  refreshedAt : Option Instant := none
  revokedAt : Option Instant := none
  revokedBy : Option Uuid := none
deriving DecidableEq, Repr

/-- authEntity.RefreshToken; TokenHash is []byte in Go, holding the bytes
of the hex hash string, modeled as the string itself. -/
structure RefreshToken where
  id : Uuid
  userID : Uuid
  sessionID : Option Uuid
  tokenHash : String
  ipAddress : Option String := none
  userAgent : Option String := none
  expiresAt : Instant
  createdAt : Instant := 0
  revokedAt : Option Instant := none
  revokedBy : Option Uuid := none
deriving DecidableEq, Repr

/-- authEntity.AuthenticatedUser with the embedded UserWithCredentials
flattened into its fields. -/
structure AuthenticatedUser where
  user : UserEntity
  accessToken : SignedToken
  refreshToken : SignedToken
  sessionID : Option Uuid
  tokenExpiry : Instant
deriving DecidableEq, Repr

/-! ## Errors

fiber.Error carries a status code and a message; plain Go errors carry only
a message.  ErrInvalidCredentials (auth.go line 25) is a single package
level value. -/

inductive SvcErr where
  | fiberErr (status : Nat) (message : String)
  | goErr (message : String)
deriving DecidableEq, Repr

/-- services.ErrInvalidCredentials = fiber.NewError(401, "invalid credentials"). -/
def errInvalidCredentials : SvcErr := .fiberErr 401 "invalid credentials"

/-! ## Request DTOs -/

/-- dto.SignInWithEmailRequest. -/
structure SignInWithEmailRequest where
  email : String
  password : String
deriving DecidableEq, Repr

/-- dto.InitiateEmailVerificationRequest. -/
structure InitiateEmailVerificationRequest where
  email : String
  redirectTo : String := ""
deriving DecidableEq, Repr

/-! ## Ambient request context

context.Context modeled as an association list over typed keys: Go
distinguishes an untyped string key from the named type apputils.ContextKey,
so the two are distinct constructors. -/

inductive CtxKey where
  | goString (s : String)
  | appKey (s : String)
deriving DecidableEq, Repr

inductive CtxVal where
  | headersMap (h : List (String × String))
  | claimsVal (c : Claims)
deriving DecidableEq, Repr

abbrev Ctx := List (CtxKey × CtxVal)

def ctxValue : Ctx → CtxKey → Option CtxVal
  | [], _ => none
  | kv :: rest, k => if kv.1 = k then some kv.2 else ctxValue rest k

def withValue (ctx : Ctx) (k : CtxKey) (v : CtxVal) : Ctx :=
  (k, v) :: ctx

/-- Contexts reachable through this repository's call paths: the background
context, extended only by the one context.WithValue call in the codebase
(middlewares/jwt.go line 63, under apputils.JwtClaimsContextKey =
ContextKey("neatspace.jwt_claims")).  No code stores anything under the raw
string key "headers" or under apputils.HeadersContextKey
("neatspace.headers"). -/
inductive ReachableCtx : Ctx → Prop
  | background : ReachableCtx []
  | jwtClaims (ctx : Ctx) (c : Claims) (h : ReachableCtx ctx) :
      ReachableCtx (withValue ctx (.appKey "neatspace.jwt_claims") (.claimsVal c))

/-- Audience resolution in SignInWithEmail (auth.go lines 256-261): read
the context value under the raw string key "headers", and when it is a
string map containing a non-empty X-App-Audience entry use that, otherwise
fall back to "client-app". -/
def signInAudience (ctx : Ctx) : String :=
  match ctxValue ctx (.goString "headers") with
  | some (.headersMap md) =>
    match md.lookup "X-App-Audience" with
    | some aud => if aud ≠ "" then aud else "client-app"
    | none => "client-app"
  | _ => "client-app"

/-! ## Session and refresh-token creation (auth.go lines 192-224)

The zero value of time.Time is modeled as instant 0, so the IsZero check
becomes an equality with 0.  The repository insert itself is modeled as
always succeeding (storage faults are out of scope); the validation
failures occur before the repository is reached. -/

/-- AuthService.CreateSession validation. -/
def createSession (now : Instant) (session : SessionEntity) : Except SvcErr SessionEntity :=
  if session.userID = "" then .error (.goErr "user_id is required")
  else if session.tokenHash = "" then .error (.goErr "token_hash is required")
  else if session.expiresAt = 0 ∨ session.expiresAt < now then
    .error (.goErr "expires_at must be set and in the future")
  else .ok session

/-- AuthService.CreateRefreshToken validation. -/
def createRefreshToken (now : Instant) (tok : RefreshToken) : Except SvcErr RefreshToken :=
  if tok.userID = "" then .error (.goErr "user_id is required")
  else if tok.tokenHash = "" then .error (.goErr "token_hash is required")
  else if tok.expiresAt = 0 ∨ tok.expiresAt < now then
    .error (.goErr "expires_at must be set and in the future")
  else .ok tok

/-! ## Sign-in -/

/-- dto.AccessTokenPayload marshalled to JSON: keys user_id, email, sid. -/
def accessTokenPayload (userID email sid : String) : List (String × CVal) :=
  [("user_id", .str userID), ("email", .str email), ("sid", .str sid)]

/-- The collaborators and configuration a sign-in call runs against.  The
user directory and password store are pure lookups; passwordMatches stands
for hasher.Validate (an external KDF) and hashToken for
jwtGen.GetHash of the token's compact serialization (SHA-256 hex). -/
structure SignInEnv where
  getUserByEmail : String → Option UserEntity
  getUserPasswordByUserID : Uuid → Option UserPasswordEntity
  passwordMatches : String → String → Bool
  hashToken : SignedToken → String
  secretKey : List Nat
  accessTokenExpiry : GoDuration
  refreshTokenExpiry : GoDuration
  baseURL : String

/-- Storage-layer calls a request performs, in order. -/
inductive StorageCall where
  | getUserByEmail (email : String)
  | getUserPasswordByUserID (uid : Uuid)
  | createSession (s : SessionEntity)
  | createRefreshToken (r : RefreshToken)
deriving DecidableEq, Repr

/-- What a successful sign-in produced: the returned bundle plus the rows
handed to the repository. -/
structure SignInResult where
  bundle : AuthenticatedUser
  session : SessionEntity
  refreshRow : RefreshToken
deriving DecidableEq, Repr

/-- AuthService.SignInWithEmail (auth.go lines 226-315).  now is the
request's clock reading (the source calls time.Now() at each site within
the same request; the model uses a single instant), sessionID and
refreshTokenUUID are the uuid.New() / uuid.NewV7() draws.  The second
component lists the storage calls made, in order. -/
def signInWithEmail (env : SignInEnv) (ctx : Ctx) (now : Instant)
    (sessionID refreshTokenUUID : Uuid) (req : SignInWithEmailRequest) :
    Except SvcErr SignInResult × List StorageCall :=
  if req.email = "" ∨ req.password = "" then (.error errInvalidCredentials, [])
  else
    match env.getUserByEmail req.email with
    | none => (.error errInvalidCredentials, [.getUserByEmail req.email])
    | some user =>
      let trace1 : List StorageCall :=
        [.getUserByEmail req.email, .getUserPasswordByUserID user.id]
      let pwOk : Bool :=
        match env.getUserPasswordByUserID user.id with
        | none => false
        | some up => env.passwordMatches req.password up.passwordHash
      if pwOk = false then (.error errInvalidCredentials, trace1)
      else if isEmailVerified user = false then (.error errInvalidCredentials, trace1)
      else
        let cfg : JWTConfig :=
          { secretKey := env.secretKey, accessTokenExpiry := env.accessTokenExpiry,
            refreshTokenExpiry := env.refreshTokenExpiry, issuer := env.baseURL }
        let audience := signInAudience ctx
        match generateRefreshTokenJWT cfg now user.id audience refreshTokenUUID with
        | .error e => (.error (.goErr e), trace1)
        | .ok refreshTok =>
          let refreshTokenHash := env.hashToken refreshTok
          let session : SessionEntity :=
            { id := sessionID, userID := user.id, tokenHash := refreshTokenHash,
              expiresAt := now + env.accessTokenExpiry }
          match createSession now session with
          | .error e => (.error e, trace1)
          | .ok _ =>
            let trace2 := trace1 ++ [StorageCall.createSession session]
            match sign cfg now (accessTokenPayload user.id user.email session.id) user.id with
            | .error e => (.error (.goErr e), trace2)
            | .ok accessTok =>
              let refreshRow : RefreshToken :=
                { id := refreshTokenUUID, userID := user.id, sessionID := some session.id,
                  tokenHash := refreshTokenHash, expiresAt := now + env.refreshTokenExpiry }
              match createRefreshToken now refreshRow with
              | .error e => (.error e, trace2)
              | .ok _ =>
                (.ok { bundle :=
                         { user := user, accessToken := accessTok, refreshToken := refreshTok,
                           sessionID := some session.id, tokenExpiry := session.expiresAt },
                       session := session, refreshRow := refreshRow },
                 trace2 ++ [StorageCall.createRefreshToken refreshRow])

/-- go-playground validator constraints on dto.SignInWithEmailRequest:
Email is required and must be a well-formed address (the format check is
abstracted as a predicate), Password must have between 8 and 24
characters. -/
def validSignInRequest (isValidEmail : String → Bool) (req : SignInWithEmailRequest) : Bool :=
  (req.email ≠ "" && isValidEmail req.email) &&
  (8 ≤ req.password.length && req.password.length ≤ 24)

/-- The POST /auth/signin/email pipeline (handler/auth.go): the
ValidateRequestJSON middleware rejects an invalid body with a 400
validation error before the handler, and hence the service and every
storage collaborator, is reached. -/
def signInRoute (isValidEmail : String → Bool) (env : SignInEnv) (ctx : Ctx) (now : Instant)
    (sessionID refreshTokenUUID : Uuid) (req : SignInWithEmailRequest) :
    Except SvcErr AuthenticatedUser × List StorageCall :=
  if validSignInRequest isValidEmail req then
    let out := signInWithEmail env ctx now sessionID refreshTokenUUID req
    (out.1.map (fun r => r.bundle), out.2)
  else
    (.error (.fiberErr 400 "validation error"), [])

/-! ## One-time tokens -/

/-- Repository calls made by the email-verification flows, in order of
attempt (an attempted call appears in the trace even when it fails). -/
inductive RepoEff where
  | getTokenByHash (h : String)
  | deleteToken (id : Uuid)
  | markEmailVerified (uid : Uuid)
deriving DecidableEq, Repr

/-- AuthRepository.GetOneTimeTokenByTokenHash: look a token up by its
hash (pgx QueryRow; absence yields nil, not an error). -/
def resolveOneTimeToken (tokenHash : String) (st : List OneTimeToken) : Option OneTimeToken :=
  st.find? (fun t => t.tokenHash = tokenHash)

/-- AuthService.ValidateEmailVerification (auth.go lines 161-190).
hashFn stands for hex(sha256(.)) applied to the raw secret.  deleteFails
and markFails inject storage failures into DeleteOneTimeToken and
MarkEmailVerified respectively; the DeleteOneTimeToken error is discarded
by the source (line 183).  Returns the outcome, the resulting token store,
and the ordered trace of attempted repository calls. -/
def validateEmailVerification (hashFn : String → String) (st : List OneTimeToken)
    (now : Instant) (deleteFails markFails : Bool) (raw : String) :
    Except SvcErr Unit × List OneTimeToken × List RepoEff :=
  let tokenHash := hashFn raw
  let eff0 : List RepoEff := [.getTokenByHash tokenHash]
  match resolveOneTimeToken tokenHash st with
  | none => (.error (.fiberErr 401 "one time token is not found"), st, eff0)
  | some t =>
    if t.expiresAt < now then (.error (.fiberErr 401 "one time token is expired"), st, eff0)
    else
      match t.userID with
      | none => (.error (.fiberErr 401 "token is not related to any user"), st, eff0)
      | some uid =>
        let st1 := if deleteFails then st else st.filter (fun x => x.id ≠ t.id)
        let eff1 := eff0 ++ [RepoEff.deleteToken t.id]
        let eff2 := eff1 ++ [RepoEff.markEmailVerified uid]
        if markFails then (.error (.fiberErr 500 "error updating email verified"), st1, eff2)
        else (.ok (), st1, eff2)

/-- The deletion loop in InitiateEmailVerification (auth.go lines
124-130): every fetched token for the (user, email_verification) pair is
deleted by id; DeleteOneTimeToken reports an error when no row with that
id remains (repository RowsAffected check), which aborts the loop. -/
def deleteTokensLoop (fetched : List OneTimeToken) (uid : Uuid)
    (st : List OneTimeToken) : Except SvcErr (List OneTimeToken) :=
  match fetched with
  | [] => .ok st
  | t :: rest =>
    if t.userID = some uid ∧ t.subject = .emailVerification then
      if st.any (fun x => x.id = t.id) then
        deleteTokensLoop rest uid (st.filter (fun x => x.id ≠ t.id))
      else .error (.goErr "no one-time token found with id")
    else deleteTokensLoop rest uid st

/-- Collaborators of InitiateEmailVerification: the user directory lookup,
the hash of the raw secret, and whether the mail delivery succeeds. -/
structure InitiateEnv where
  getUserByEmail : String → Option UserEntity
  hashFn : String → String
  mailOk : Bool

/-- AuthService.InitiateEmailVerification (auth.go lines 78-159).  newID
is the uuid.New() draw for the fresh token and rawToken the generated
URL-safe secret.  Mirrors the source: fetch all tokens, update last_sent_at
on the first still-valid token for the (user, email_verification) pair,
then delete every fetched token for that pair, insert the fresh token with
a 15-minute TTL, and finally send the verification mail. -/
def initiateEmailVerification (env : InitiateEnv) (st : List OneTimeToken)
    (now : Instant) (newID : Uuid) (rawToken : String)
    (req : InitiateEmailVerificationRequest) : Except SvcErr (List OneTimeToken) :=
  match env.getUserByEmail req.email with
  | none => .error (.fiberErr 404 "user not found")
  | some user =>
    if isEmailVerified user then .error (.fiberErr 400 "email already verified")
    else
      let userID := user.id
      let tokens := st
      let existing := tokens.find? (fun t =>
        t.userID = some userID && t.subject = .emailVerification && decide (now < t.expiresAt))
      let st1 := match existing with
        | some e => st.map (fun t => if t.id = e.id then { t with lastSentAt := some now } else t)
        | none => st
      let tokenHash := env.hashFn rawToken
      let expiresAt := now + 15 * 60
      match deleteTokensLoop tokens userID st1 with
      | .error e => .error e
      | .ok st2 =>
        let metadata := if req.redirectTo ≠ "" then [("redirect_to", req.redirectTo)] else []
        let newTok : OneTimeToken :=
          { id := newID, userID := some userID, subject := .emailVerification,
            tokenHash := tokenHash, relatesTo := user.email, metadata := metadata,
            createdAt := now, expiresAt := expiresAt, lastSentAt := some now }
        let st3 := st2 ++ [newTok]
        if env.mailOk then .ok st3 else .error (.goErr "failed to send verification email")

/-- A token is active for the (user, email_verification) pair at a given
instant when it references that user with that subject and has not yet
expired. -/
def activeTokensFor (st : List OneTimeToken) (uid : Uuid) (now : Instant) :
    List OneTimeToken :=
  st.filter (fun t =>
    t.userID = some uid && t.subject = .emailVerification && decide (now < t.expiresAt))

/-! ## Bearer middleware (middlewares/jwt.go) -/

/-- The token-type guard at middlewares/jwt.go lines 39-43: the middleware
reads claim key "type" (the codec writes its discriminator under "typ")
and rejects when it is a string other than "access". -/
def middlewareTypeRejects (claims : Claims) : Bool :=
  match getClaim claims "type" with
  | some (.str t) => t ≠ "access"
  | _ => false

/-- JWTMiddleware after Bearer extraction: parse and validate the token
against the configured secret, then apply the type guard; on success the
claims are exposed to the handler. -/
def jwtMiddlewareCheck (secret : List Nat) (now : Instant) (tok : SignedToken) :
    Except SvcErr Claims :=
  match parseAndValidate
      { secretKey := secret, accessTokenExpiry := 0, refreshTokenExpiry := 0, issuer := "" }
      now tok with
  | .error e => .error (.fiberErr 401 ("invalid token :" ++ e))
  | .ok claims =>
    if middlewareTypeRejects claims then
      .error (.fiberErr 401 "token is not an access token")
    else .ok claims

/-! ## Derived predicates and demo fixtures -/

/-- One of the three credential-failure causes holds: the email is unknown
to the user directory, the stored password hash is absent or does not
match, or the user's email is not verified. -/
def invalidCredentialCause (env : SignInEnv) (req : SignInWithEmailRequest) : Prop :=
  env.getUserByEmail req.email = none ∨
  (∃ u, env.getUserByEmail req.email = some u ∧
    env.getUserPasswordByUserID u.id = none) ∨
  (∃ u up, env.getUserByEmail req.email = some u ∧
    env.getUserPasswordByUserID u.id = some up ∧
    env.passwordMatches req.password up.passwordHash = false) ∨
  (∃ u, env.getUserByEmail req.email = some u ∧ u.emailVerifiedAt = none)

/-- A concrete sign-in environment with one verified user, used to
instantiate the sign-in theorems. -/
def signinDemoEnv : SignInEnv :=
  { getUserByEmail := fun e =>
      if e = "a@b.com" then some { id := "u1", email := "a@b.com", emailVerifiedAt := some 5 }
      else none,
    getUserPasswordByUserID := fun _ => some { userID := "u1", passwordHash := "ph" },
    passwordMatches := fun _ _ => true,
    hashToken := fun _ => "hh",
    secretKey := [1], accessTokenExpiry := 900, refreshTokenExpiry := 604800,
    baseURL := "neatspace" }

/-- The value a successful sign-in against signinDemoEnv at instant 0 with
session id sid1 and refresh-token id rid1 produces. -/
def signinDemoResult : SignInResult :=
  { bundle :=
      { user := { id := "u1", email := "a@b.com", emailVerifiedAt := some 5 },
        accessToken :=
          { claims := [("sid", .str "sid1"), ("email", .str "a@b.com"), ("user_id", .str "u1"),
              ("sub", .str "u1"), ("typ", .str "access"), ("iat", .time 0),
              ("iss", .str "neatspace")],
            signedWith := [1] },
        refreshToken :=
          { claims := [("jti", .str "rid1"), ("typ", .str "refresh"), ("aud", .str "client-app"),
              ("sub", .str "u1"), ("exp", .time 604800), ("iat", .time 0),
              ("iss", .str "neatspace")],
            signedWith := [1] },
        sessionID := some "sid1", tokenExpiry := 900 },
    session := { id := "sid1", userID := "u1", tokenHash := "hh", expiresAt := 900 },
    refreshRow :=
      { id := "rid1", userID := "u1", sessionID := some "sid1", tokenHash := "hh",
        expiresAt := 604800 } }

/-- The fresh one-time token InitiateEmailVerification persists (auth.go
lines 139-149), as a function of its inputs. -/
def mintedToken (uid : Uuid) (email : String) (now : Instant) (newID : Uuid)
    (tokenHash : String) (redirectTo : String) : OneTimeToken :=
  { id := newID, userID := some uid, subject := .emailVerification, tokenHash := tokenHash,
    relatesTo := email,
    metadata := if redirectTo ≠ "" then [("redirect_to", redirectTo)] else [],
    createdAt := now, expiresAt := now + 15 * 60, lastSentAt := some now }

/-- A stand-in for the SHA-256 hex hash in concrete email-verification
runs. -/
def demoHashFn : String → String := fun s => s ++ "-hash"

/-- A demo one-time token for user u1, hash of the raw secret "raw",
expiring at instant 900. -/
def demoOtt : OneTimeToken :=
  { id := "tid1", userID := some "u1", subject := .emailVerification,
    tokenHash := "raw-hash", relatesTo := "a@b.com", expiresAt := 900 }

/-! ## Claim-map lemmas -/

theorem getClaim_filter_ne (c : Claims) (k₀ k : String) (h : k₀ ≠ k) :
    getClaim (c.filter (fun kv => kv.1 ≠ k₀)) k = getClaim c k := by
  induction c with
  | nil => rfl
  | cons kv rest ih =>
    rw [List.filter_cons]
    by_cases hk : kv.1 = k₀
    · have hne : ¬ kv.1 = k := by rw [hk]; exact h
      rw [if_neg (by simp [hk]), ih]
      simp [getClaim, hne]
    · rw [if_pos (by simp [hk])]
      simp only [getClaim]
      rw [ih]

theorem getClaim_setClaim_self (c : Claims) (k : String) (v : CVal) :
    getClaim (setClaim c k v) k = some v := by
  simp [setClaim, getClaim]

theorem getClaim_setClaim_ne (c : Claims) (k₀ k : String) (v : CVal) (h : k₀ ≠ k) :
    getClaim (setClaim c k₀ v) k = getClaim c k := by
  simp only [setClaim, getClaim, if_neg h]
  exact getClaim_filter_ne c k₀ k h

theorem getClaim_tokenSet_ne (c : Claims) (k₀ k : String) (v : CVal) (h : k₀ ≠ k) :
    getClaim (tokenSet c k₀ v) k = getClaim c k := by
  unfold tokenSet
  split
  · cases numericDateAccept v with
    | none => rfl
    | some t => exact getClaim_setClaim_ne c k₀ k _ h
  · split
    · cases stringAccept v with
      | none => rfl
      | some s => exact getClaim_setClaim_ne c k₀ k _ h
    · exact getClaim_setClaim_ne c k₀ k v h

theorem tokenSet_not_registered (c : Claims) (k : String) (v : CVal)
    (h : k ∉ registeredClaimKeys) :
    tokenSet c k v = setClaim c k v := by
  simp only [registeredClaimKeys, List.mem_cons, List.not_mem_nil, or_false] at h
  push_neg at h
  obtain ⟨h1, h2, h3, h4, h5, h6, h7⟩ := h
  unfold tokenSet
  rw [if_neg (by simp [h4, h6, h5]), if_neg (by simp [h1, h2, h7, h3])]

theorem getClaim_payload_foldl_ne (payload : List (String × CVal)) (c : Claims)
    (k : String) (h : ∀ kv ∈ payload, kv.1 ≠ k) :
    getClaim (payload.foldl (fun acc kv => tokenSet acc kv.1 kv.2) c) k = getClaim c k := by
  induction payload generalizing c with
  | nil => rfl
  | cons kv rest ih =>
    rw [List.foldl_cons]
    rw [ih _ (fun x hx => h x (List.mem_cons_of_mem _ hx))]
    exact getClaim_tokenSet_ne c kv.1 k kv.2 (h kv (List.mem_cons_self _ _))

theorem getClaim_payload_foldl_mem (payload : List (String × CVal)) (c : Claims)
    (hnd : (payload.map Prod.fst).Nodup)
    (hreg : ∀ kv ∈ payload, kv.1 ∉ registeredClaimKeys) :
    ∀ kv ∈ payload,
      getClaim (payload.foldl (fun acc kv => tokenSet acc kv.1 kv.2) c) kv.1 = some kv.2 := by
  induction payload generalizing c with
  | nil => intro kv hkv; cases hkv
  | cons kv₀ rest ih =>
    intro kv hkv
    rw [List.foldl_cons]
    rcases List.mem_cons.mp hkv with heq | hmem
    · subst heq
      have hnotin : kv.1 ∉ rest.map Prod.fst := (List.nodup_cons.mp (by simpa using hnd)).1
      have hnot : ∀ x ∈ rest, x.1 ≠ kv.1 := by
        intro x hx hcontra
        exact hnotin (hcontra ▸ List.mem_map_of_mem Prod.fst hx)
      rw [getClaim_payload_foldl_ne rest _ _ hnot]
      rw [tokenSet_not_registered c kv.1 kv.2 (hreg kv (List.mem_cons_self _ _))]
      exact getClaim_setClaim_self c kv.1 kv.2
    · exact ih _ (by simpa using (List.nodup_cons.mp (by simpa using hnd)).2)
        (fun x hx => hreg x (List.mem_cons_of_mem _ hx)) kv hmem

/-! ## Base claims of the two token kinds -/

theorem signClaims_exp (cfg : JWTConfig) (now : Instant) (payload : List (String × CVal))
    (subject : String) (h : ∀ kv ∈ payload, kv.1 ≠ "exp") :
    getClaim (signClaims cfg now payload subject) "exp" = none := by
  unfold signClaims
  rw [getClaim_payload_foldl_ne _ _ _ h]
  by_cases hs : subject ≠ ""
  · rw [if_pos hs, getClaim_tokenSet_ne _ _ _ _ (by decide),
      getClaim_tokenSet_ne _ _ _ _ (by decide)]
    rw [show tokenSet (tokenSet (tokenSet [] "iss" (.str cfg.issuer)) "iat" (.time now))
          "exp" (.dur cfg.accessTokenExpiry) =
        tokenSet (tokenSet [] "iss" (.str cfg.issuer)) "iat" (.time now) from rfl]
    rw [getClaim_tokenSet_ne _ _ _ _ (by decide), getClaim_tokenSet_ne _ _ _ _ (by decide)]
    rfl
  · rw [if_neg hs, getClaim_tokenSet_ne _ _ _ _ (by decide)]
    rw [show tokenSet (tokenSet (tokenSet [] "iss" (.str cfg.issuer)) "iat" (.time now))
          "exp" (.dur cfg.accessTokenExpiry) =
        tokenSet (tokenSet [] "iss" (.str cfg.issuer)) "iat" (.time now) from rfl]
    rw [getClaim_tokenSet_ne _ _ _ _ (by decide), getClaim_tokenSet_ne _ _ _ _ (by decide)]
    rfl

theorem signClaims_iat (cfg : JWTConfig) (now : Instant) (payload : List (String × CVal))
    (subject : String) (h : ∀ kv ∈ payload, kv.1 ≠ "iat") :
    getClaim (signClaims cfg now payload subject) "iat" = some (.time now) := by
  unfold signClaims
  rw [getClaim_payload_foldl_ne _ _ _ h]
  by_cases hs : subject ≠ ""
  · rw [if_pos hs, getClaim_tokenSet_ne _ _ _ _ (by decide),
      getClaim_tokenSet_ne _ _ _ _ (by decide)]
    rw [show tokenSet (tokenSet (tokenSet [] "iss" (.str cfg.issuer)) "iat" (.time now))
          "exp" (.dur cfg.accessTokenExpiry) =
        tokenSet (tokenSet [] "iss" (.str cfg.issuer)) "iat" (.time now) from rfl]
    rw [show tokenSet (tokenSet [] "iss" (.str cfg.issuer)) "iat" (.time now) =
        setClaim (tokenSet [] "iss" (.str cfg.issuer)) "iat" (.time now) from rfl]
    exact getClaim_setClaim_self _ _ _
  · rw [if_neg hs, getClaim_tokenSet_ne _ _ _ _ (by decide)]
    rw [show tokenSet (tokenSet (tokenSet [] "iss" (.str cfg.issuer)) "iat" (.time now))
          "exp" (.dur cfg.accessTokenExpiry) =
        tokenSet (tokenSet [] "iss" (.str cfg.issuer)) "iat" (.time now) from rfl]
    rw [show tokenSet (tokenSet [] "iss" (.str cfg.issuer)) "iat" (.time now) =
        setClaim (tokenSet [] "iss" (.str cfg.issuer)) "iat" (.time now) from rfl]
    exact getClaim_setClaim_self _ _ _

theorem signClaims_nbf (cfg : JWTConfig) (now : Instant) (payload : List (String × CVal))
    (subject : String) (h : ∀ kv ∈ payload, kv.1 ≠ "nbf") :
    getClaim (signClaims cfg now payload subject) "nbf" = none := by
  unfold signClaims
  rw [getClaim_payload_foldl_ne _ _ _ h]
  by_cases hs : subject ≠ ""
  · rw [if_pos hs, getClaim_tokenSet_ne _ _ _ _ (by decide),
      getClaim_tokenSet_ne _ _ _ _ (by decide)]
    rw [show tokenSet (tokenSet (tokenSet [] "iss" (.str cfg.issuer)) "iat" (.time now))
          "exp" (.dur cfg.accessTokenExpiry) =
        tokenSet (tokenSet [] "iss" (.str cfg.issuer)) "iat" (.time now) from rfl]
    rw [getClaim_tokenSet_ne _ _ _ _ (by decide), getClaim_tokenSet_ne _ _ _ _ (by decide)]
    rfl
  · rw [if_neg hs, getClaim_tokenSet_ne _ _ _ _ (by decide)]
    rw [show tokenSet (tokenSet (tokenSet [] "iss" (.str cfg.issuer)) "iat" (.time now))
          "exp" (.dur cfg.accessTokenExpiry) =
        tokenSet (tokenSet [] "iss" (.str cfg.issuer)) "iat" (.time now) from rfl]
    rw [getClaim_tokenSet_ne _ _ _ _ (by decide), getClaim_tokenSet_ne _ _ _ _ (by decide)]
    rfl

theorem signClaims_sub (cfg : JWTConfig) (now : Instant) (payload : List (String × CVal))
    (subject : String) (hs : subject ≠ "") (h : ∀ kv ∈ payload, kv.1 ≠ "sub") :
    getClaim (signClaims cfg now payload subject) "sub" = some (.str subject) := by
  unfold signClaims
  rw [getClaim_payload_foldl_ne _ _ _ h, if_pos hs]
  rw [show tokenSet (tokenSet (tokenSet (tokenSet (tokenSet [] "iss" (.str cfg.issuer))
        "iat" (.time now)) "exp" (.dur cfg.accessTokenExpiry)) "typ" (.str "access"))
        "sub" (.str subject) =
      setClaim (tokenSet (tokenSet (tokenSet (tokenSet [] "iss" (.str cfg.issuer))
        "iat" (.time now)) "exp" (.dur cfg.accessTokenExpiry)) "typ" (.str "access"))
        "sub" (.str subject) from rfl]
  exact getClaim_setClaim_self _ _ _

/-! ## C1: Sign/Verify round trip -/

/-- C1 (amended): for every payload whose field names avoid the registered
JWT claim names (iss, sub, aud, exp, nbf, iat, jti) and have no
duplicates, every subject and every non-empty secret key, verifying a
token produced by Sign at or after the signing instant succeeds and the
returned claim map recovers every payload field, and recovers the subject
under sub whenever the subject is non-empty (Sign skips the subject claim
for an empty subject). -/
theorem sign_verify_roundtrip (cfg : JWTConfig) (now v : Instant)
    (payload : List (String × CVal)) (subject : String)
    (hkey : cfg.secretKey ≠ [])
    (hreg : ∀ kv ∈ payload, kv.1 ∉ registeredClaimKeys)
    (hnd : (payload.map Prod.fst).Nodup)
    (hv : now ≤ v) :
    ∃ tok, sign cfg now payload subject = .ok tok ∧
      parseAndValidate cfg v tok = .ok tok.claims ∧
      (∀ kv ∈ payload, getClaim tok.claims kv.1 = some kv.2) ∧
      (subject ≠ "" → getClaim tok.claims "sub" = some (.str subject)) := by
  have hexp : ∀ kv ∈ payload, kv.1 ≠ "exp" := by
    intro kv hkv hc
    exact hreg kv hkv (by rw [hc]; decide)
  have hiat : ∀ kv ∈ payload, kv.1 ≠ "iat" := by
    intro kv hkv hc
    exact hreg kv hkv (by rw [hc]; decide)
  have hnbf : ∀ kv ∈ payload, kv.1 ≠ "nbf" := by
    intro kv hkv hc
    exact hreg kv hkv (by rw [hc]; decide)
  have hsub : ∀ kv ∈ payload, kv.1 ≠ "sub" := by
    intro kv hkv hc
    exact hreg kv hkv (by rw [hc]; decide)
  refine ⟨⟨signClaims cfg now payload subject, cfg.secretKey⟩, ?_, ?_, ?_, ?_⟩
  · simp [sign, hkey]
  · unfold parseAndValidate
    rw [if_neg (by simp)]
    rw [if_pos ?_]
    unfold claimsTimeValid
    rw [signClaims_exp cfg now payload subject hexp,
      signClaims_iat cfg now payload subject hiat,
      signClaims_nbf cfg now payload subject hnbf]
    simp [hv]
  · exact getClaim_payload_foldl_mem payload _ hnd hreg
  · intro hs
    exact signClaims_sub cfg now payload subject hs hsub

/-- C1 witness: a concrete instantiation of the round trip. -/
theorem sign_verify_roundtrip_witness :
    ∃ tok, sign ⟨[1], 900, 604800, "neatspace"⟩ 0 [("user_id", CVal.str "u1")] "u1" = .ok tok ∧
      parseAndValidate ⟨[1], 900, 604800, "neatspace"⟩ 0 tok = .ok tok.claims ∧
      (∀ kv ∈ [("user_id", CVal.str "u1")], getClaim tok.claims kv.1 = some kv.2) ∧
      ("u1" ≠ "" → getClaim tok.claims "sub" = some (.str "u1")) :=
  sign_verify_roundtrip ⟨[1], 900, 604800, "neatspace"⟩ 0 0 [("user_id", CVal.str "u1")] "u1"
    (by decide) (by decide) (by decide) (by decide)

/-- C1 counterexample to the claim as stated: the payload is free to set
the registered exp claim, and a payload field exp = 1 signed at instant
1000 yields a token whose verification fails, so verification does not
succeed for every JSON-serialisable payload. -/
theorem sign_verify_roundtrip_cex :
    sign ⟨[1], 900, 604800, "neatspace"⟩ 1000 [("exp", CVal.num 1)] "u1" =
      .ok ⟨[("exp", CVal.time 1), ("sub", CVal.str "u1"), ("typ", CVal.str "access"),
            ("iat", CVal.time 1000), ("iss", CVal.str "neatspace")], [1]⟩ ∧
    parseAndValidate ⟨[1], 900, 604800, "neatspace"⟩ 1000
      ⟨[("exp", CVal.time 1), ("sub", CVal.str "u1"), ("typ", CVal.str "access"),
        ("iat", CVal.time 1000), ("iss", CVal.str "neatspace")], [1]⟩ =
      .error "parse/validate jwt: validation failed" := ⟨rfl, rfl⟩

/-! ## C2: claims carried by the two token kinds -/

/-- C2: the code passes config.AccessTokenExpiry (a time.Duration) to the
jwx expiration setter, which rejects it, and the error is discarded, so an
access token minted by Sign carries no expiry claim at all -- while the
refresh token built by GenerateRefreshTokenJWT does carry
exp = signing time + refresh lifetime, and both carry issuer, issued-at
and their typ discriminator. -/
theorem access_token_exp_divergence :
    getClaim (signClaims ⟨[1], 900, 604800, "neatspace"⟩ 0
      (accessTokenPayload "u1" "a@b.com" "sid1") "u1") "exp" = none ∧
    numericDateAccept (CVal.dur 900) = none ∧
    getClaim (signClaims ⟨[1], 900, 604800, "neatspace"⟩ 0
      (accessTokenPayload "u1" "a@b.com" "sid1") "u1") "typ" = some (.str "access") ∧
    getClaim (signClaims ⟨[1], 900, 604800, "neatspace"⟩ 0
      (accessTokenPayload "u1" "a@b.com" "sid1") "u1") "iat" = some (.time 0) ∧
    getClaim (signClaims ⟨[1], 900, 604800, "neatspace"⟩ 0
      (accessTokenPayload "u1" "a@b.com" "sid1") "u1") "iss" = some (.str "neatspace") ∧
    getClaim (refreshClaims ⟨[1], 900, 604800, "neatspace"⟩ 0 "u1" "client-app" "rid1")
      "exp" = some (.time 604800) ∧
    getClaim (refreshClaims ⟨[1], 900, 604800, "neatspace"⟩ 0 "u1" "client-app" "rid1")
      "typ" = some (.str "refresh") ∧
    getClaim (refreshClaims ⟨[1], 900, 604800, "neatspace"⟩ 0 "u1" "client-app" "rid1")
      "iat" = some (.time 0) ∧
    getClaim (refreshClaims ⟨[1], 900, 604800, "neatspace"⟩ 0 "u1" "client-app" "rid1")
      "iss" = some (.str "neatspace") := by decide

/-! ## C3: indistinguishable sign-in failures -/

/-- C3: whenever the email is unknown, the stored hash is absent or does
not match, or the email is unverified, SignInWithEmail returns the one
package-level ErrInvalidCredentials value, so the three causes are
indistinguishable to the caller. -/
theorem signin_invalid_credentials_uniform (env : SignInEnv) (ctx : Ctx) (now : Instant)
    (sessionID refreshTokenUUID : Uuid) (req : SignInWithEmailRequest)
    (h : invalidCredentialCause env req) :
    (signInWithEmail env ctx now sessionID refreshTokenUUID req).1 =
      .error errInvalidCredentials := by
  unfold signInWithEmail
  by_cases h0 : req.email = "" ∨ req.password = ""
  · rw [if_pos h0]
  · rw [if_neg h0]
    rcases h with h1 | ⟨u, hu, hp⟩ | ⟨u, up, hu, hp, hm⟩ | ⟨u, hu, hv⟩
    · simp [h1]
    · simp [hu, hp]
    · simp [hu, hp, hm]
    · rw [hu]
      simp only
      cases hp2 : env.getUserPasswordByUserID u.id with
      | none => simp
      | some up =>
        cases hm2 : env.passwordMatches req.password up.passwordHash with
        | false => simp [hm2]
        | true => simp [hm2, isEmailVerified, hv]

/-- C3 witness: unknown email at a concrete environment. -/
theorem signin_invalid_credentials_uniform_witness :
    (signInWithEmail
      { getUserByEmail := fun _ => none, getUserPasswordByUserID := fun _ => none,
        passwordMatches := fun _ _ => false, hashToken := fun _ => "h",
        secretKey := [1], accessTokenExpiry := 900, refreshTokenExpiry := 604800,
        baseURL := "neatspace" }
      [] 0 "sid1" "rid1" ⟨"a@b.com", "password123"⟩).1 = .error errInvalidCredentials :=
  signin_invalid_credentials_uniform _ [] 0 "sid1" "rid1" ⟨"a@b.com", "password123"⟩
    (Or.inl rfl)

/-! ## C4: rows created by a successful sign-in -/

/-- C4: on every successful SignInWithEmail call, the session row's
token_hash is the hash of the returned refresh token and its expires_at is
the signing instant plus the access-token lifetime; the refresh-token row
is linked to that session, its id is the jti embedded in the refresh JWT,
and its expires_at is the signing instant plus the refresh-token lifetime;
and the returned bundle carries that session id and expiry. -/
theorem signin_success_rows (env : SignInEnv) (ctx : Ctx) (now : Instant)
    (sessionID refreshTokenUUID : Uuid) (req : SignInWithEmailRequest)
    (res : SignInResult)
    (h : (signInWithEmail env ctx now sessionID refreshTokenUUID req).1 = .ok res) :
    res.session.tokenHash = env.hashToken res.bundle.refreshToken ∧
    res.session.expiresAt = now + env.accessTokenExpiry ∧
    res.refreshRow.sessionID = some res.session.id ∧
    res.refreshRow.id = refreshTokenUUID ∧
    getClaim res.bundle.refreshToken.claims "jti" = some (.str refreshTokenUUID) ∧
    res.refreshRow.tokenHash = res.session.tokenHash ∧
    res.refreshRow.expiresAt = now + env.refreshTokenExpiry ∧
    res.bundle.sessionID = some res.session.id ∧
    res.bundle.tokenExpiry = res.session.expiresAt := by
  unfold signInWithEmail at h
  split at h
  · cases h
  · split at h
    · cases h
    · simp only at h
      split at h
      · cases h
      · split at h
        · cases h
        · split at h
          · cases h
          · next refreshTok heq =>
            split at h
            · cases h
            · split at h
              · cases h
              · split at h
                · cases h
                · cases h
                  unfold generateRefreshTokenJWT at heq
                  split at heq
                  · cases heq
                  · cases heq
                    exact ⟨rfl, rfl, rfl, rfl, rfl, rfl, rfl, rfl, rfl⟩

/-- C4 witness: a concrete successful sign-in and the row properties it
guarantees. -/
theorem signin_success_rows_witness :
    (signInWithEmail signinDemoEnv [] 0 "sid1" "rid1" ⟨"a@b.com", "password123"⟩).1 =
      .ok signinDemoResult ∧
    (signinDemoResult.session.tokenHash =
        signinDemoEnv.hashToken signinDemoResult.bundle.refreshToken ∧
      signinDemoResult.session.expiresAt = 0 + signinDemoEnv.accessTokenExpiry ∧
      signinDemoResult.refreshRow.sessionID = some signinDemoResult.session.id ∧
      signinDemoResult.refreshRow.id = "rid1" ∧
      getClaim signinDemoResult.bundle.refreshToken.claims "jti" = some (.str "rid1") ∧
      signinDemoResult.refreshRow.tokenHash = signinDemoResult.session.tokenHash ∧
      signinDemoResult.refreshRow.expiresAt = 0 + signinDemoEnv.refreshTokenExpiry ∧
      signinDemoResult.bundle.sessionID = some signinDemoResult.session.id ∧
      signinDemoResult.bundle.tokenExpiry = signinDemoResult.session.expiresAt) :=
  ⟨by rfl, signin_success_rows signinDemoEnv [] 0 "sid1" "rid1" ⟨"a@b.com", "password123"⟩
      signinDemoResult (by rfl)⟩

/-! ## C8: short passwords are rejected before storage -/

/-- C8: a sign-in request whose password has fewer than 8 characters is
rejected by the request-validation middleware with a 400 validation error,
and the empty storage-call trace shows that neither the user directory nor
the repository is consulted. -/
theorem short_password_rejected_before_storage (isValidEmail : String → Bool)
    (env : SignInEnv) (ctx : Ctx) (now : Instant) (sessionID refreshTokenUUID : Uuid)
    (req : SignInWithEmailRequest) (h : req.password.length < 8) :
    signInRoute isValidEmail env ctx now sessionID refreshTokenUUID req =
      (.error (.fiberErr 400 "validation error"), []) := by
  have hlen : ¬ (8 ≤ req.password.length) := by omega
  have hv : validSignInRequest isValidEmail req = false := by
    unfold validSignInRequest
    simp [hlen]
  unfold signInRoute
  rw [hv]
  rfl

/-- C8 witness: the spec scenario, password "short". -/
theorem short_password_rejected_before_storage_witness :
    signInRoute (fun e => e = "a@b.com") signinDemoEnv [] 0 "sid1" "rid1"
      ⟨"a@b.com", "short"⟩ = (.error (.fiberErr 400 "validation error"), []) :=
  short_password_rejected_before_storage (fun e => e = "a@b.com") signinDemoEnv [] 0
    "sid1" "rid1" ⟨"a@b.com", "short"⟩ (by decide)

/-! ## C10: the refresh-token audience is always the default -/

theorem reachable_ctx_headers_none (ctx : Ctx) (h : ReachableCtx ctx) :
    ctxValue ctx (.goString "headers") = none := by
  induction h with
  | background => rfl
  | jwtClaims ctx c hr ih =>
    simpa [withValue, ctxValue] using ih

/-- C10: in every context reachable through this repository's call paths,
the lookup under the raw string key "headers" yields nothing (the only
WithValue in the codebase stores jwt claims under the distinct typed key
neatspace.jwt_claims), so the audience defaults to "client-app" and the
minted refresh JWT carries aud = "client-app". -/
theorem refresh_audience_always_default (ctx : Ctx) (h : ReachableCtx ctx)
    (cfg : JWTConfig) (now : Instant) (uid jti : String) :
    signInAudience ctx = "client-app" ∧
    getClaim (refreshClaims cfg now uid (signInAudience ctx) jti) "aud" =
      some (.str "client-app") := by
  have hh := reachable_ctx_headers_none ctx h
  have ha : signInAudience ctx = "client-app" := by
    unfold signInAudience
    rw [hh]
  refine ⟨ha, ?_⟩
  rw [ha]
  rfl

/-- C10 witness: the background context. -/
theorem refresh_audience_always_default_witness :
    signInAudience [] = "client-app" ∧
    getClaim (refreshClaims ⟨[1], 900, 604800, "neatspace"⟩ 0 "u1" (signInAudience [])
      "rid1") "aud" = some (.str "client-app") :=
  refresh_audience_always_default [] ReachableCtx.background
    ⟨[1], 900, 604800, "neatspace"⟩ 0 "u1" "rid1"

/-! ## C5: email-verification validation -/

/-- C5 (amended): ValidateEmailVerification fails with Unauthorized (401)
exactly when the hashed secret resolves to no stored token, the resolved
token is expired, or it has no owning user; on success it attempts the
deletion of the token and marks the owning user's email verified, and a
failure of the deletion does not fail the overall operation because its
error is discarded -- the deletion is attempted before the marking, not
after the marking has succeeded. -/
theorem validate_email_verification_spec (hashFn : String → String)
    (st : List OneTimeToken) (now : Instant) (deleteFails markFails : Bool) (raw : String) :
    ((∃ msg, (validateEmailVerification hashFn st now deleteFails markFails raw).1 =
        .error (.fiberErr 401 msg)) ↔
      (∀ t, resolveOneTimeToken (hashFn raw) st = some t →
        t.expiresAt < now ∨ t.userID = none)) ∧
    (∀ t uid, resolveOneTimeToken (hashFn raw) st = some t →
      ¬ t.expiresAt < now → t.userID = some uid → markFails = false →
      (validateEmailVerification hashFn st now deleteFails markFails raw).1 = .ok () ∧
      (validateEmailVerification hashFn st now deleteFails markFails raw).2.2 =
        [.getTokenByHash (hashFn raw), .deleteToken t.id, .markEmailVerified uid] ∧
      (deleteFails = false →
        (validateEmailVerification hashFn st now deleteFails markFails raw).2.1 =
          st.filter (fun x => x.id ≠ t.id))) := by
  constructor
  · unfold validateEmailVerification
    cases hr : resolveOneTimeToken (hashFn raw) st with
    | none =>
      simp only [hr]
      constructor
      · intro _ t ht
        cases ht
      · intro _
        exact ⟨"one time token is not found", rfl⟩
    | some t =>
      by_cases hexp : t.expiresAt < now
      · simp only [hr, if_pos hexp]
        constructor
        · intro _ u hu
          cases hu
          exact Or.inl hexp
        · intro _
          exact ⟨"one time token is expired", rfl⟩
      · cases hu : t.userID with
        | none =>
          simp only [hr, if_neg hexp, hu]
          constructor
          · intro _ u huu
            cases huu
            exact Or.inr hu
          · intro _
            exact ⟨"token is not related to any user", rfl⟩
        | some uid =>
          simp only [hr, if_neg hexp, hu]
          constructor
          · intro hmsg
            obtain ⟨msg, hm⟩ := hmsg
            cases markFails with
            | true => simp at hm
            | false => simp at hm
          · intro hall
            rcases hall t rfl with hcontra | hcontra
            · exact absurd hcontra hexp
            · rw [hu] at hcontra
              cases hcontra
  · intro t uid hr hexp hu hmf
    subst hmf
    simp only [validateEmailVerification, hr, if_neg hexp, hu]
    refine ⟨rfl, rfl, fun hd => ?_⟩
    rw [hd]
    rfl

/-- C5 witness: a concrete successful validation against a fresh valid
token. -/
theorem validate_email_verification_spec_witness :
    (validateEmailVerification demoHashFn [demoOtt] 0 false false "raw").1 = .ok () ∧
    (validateEmailVerification demoHashFn [demoOtt] 0 false false "raw").2.2 =
      [.getTokenByHash (demoHashFn "raw"), .deleteToken demoOtt.id,
        .markEmailVerified "u1"] ∧
    (validateEmailVerification demoHashFn [demoOtt] 0 false false "raw").2.1 =
      [demoOtt].filter (fun x => x.id ≠ demoOtt.id) := by
  have h := (validate_email_verification_spec demoHashFn [demoOtt] 0 false false "raw").2
    demoOtt "u1" rfl (by decide) rfl rfl
  exact ⟨h.1, h.2.1, h.2.2 rfl⟩

/-- C5 counterexample to the claim as stated: in a concrete run in which
the invalidation fails yet the operation succeeds, the attempted deletion
occurs strictly before the marking of the email in the repository-call
order, so the marking has not already succeeded at the point of the
invalidation. -/
theorem validate_mark_not_before_delete_cex :
    (validateEmailVerification demoHashFn [demoOtt] 0 true false "raw").1 = .ok () ∧
    (validateEmailVerification demoHashFn [demoOtt] 0 true false "raw").2.2 =
      [.getTokenByHash "raw-hash", .deleteToken "tid1", .markEmailVerified "u1"] ∧
    ¬ (List.indexOf (RepoEff.markEmailVerified "u1")
          ((validateEmailVerification demoHashFn [demoOtt] 0 true false "raw").2.2) <
        List.indexOf (RepoEff.deleteToken "tid1")
          ((validateEmailVerification demoHashFn [demoOtt] 0 true false "raw").2.2)) := by
  refine ⟨rfl, rfl, ?_⟩
  decide

/-! ## C6: at most one active token per (user, subject) pair -/

theorem deleteTokensLoop_ok (fetched : List OneTimeToken) (uid : Uuid)
    (st st2 : List OneTimeToken) (h : deleteTokensLoop fetched uid st = .ok st2) :
    ∀ x ∈ st2, x ∈ st ∧
      ∀ t ∈ fetched, (t.userID = some uid ∧ t.subject = .emailVerification) →
        x.id ≠ t.id := by
  induction fetched generalizing st with
  | nil =>
    cases h
    intro x hx
    exact ⟨hx, fun t ht _ => absurd ht (List.not_mem_nil t)⟩
  | cons t0 rest ih =>
    unfold deleteTokensLoop at h
    split at h
    · next hpair =>
      split at h
      · intro x hx
        obtain ⟨hmem, hrest⟩ := ih _ h x hx
        have hmemSt : x ∈ st := List.mem_of_mem_filter hmem
        have hne0 : x.id ≠ t0.id := by
          have hf := List.of_mem_filter hmem
          simpa using hf
        refine ⟨hmemSt, fun t ht hp => ?_⟩
        rcases List.mem_cons.mp ht with heq | htr
        · rw [heq]
          exact hne0
        · exact hrest t htr hp
      · cases h
    · next hpair =>
      intro x hx
      obtain ⟨hmem, hrest⟩ := ih _ h x hx
      refine ⟨hmem, fun t ht hp => ?_⟩
      rcases List.mem_cons.mp ht with heq | htr
      · rw [heq] at hp
        exact absurd hp hpair
      · exact hrest t htr hp

/-- Structure of the store after a completed InitiateEmailVerification:
some residue st2 of the original store from which every
(user, email_verification) token has been retired, followed by the freshly
minted token. -/
theorem initiate_ok_shape (env : InitiateEnv) (st : List OneTimeToken) (now : Instant)
    (newID : Uuid) (rawToken : String) (req : InitiateEmailVerificationRequest)
    (st3 : List OneTimeToken) (user : UserEntity)
    (hu : env.getUserByEmail req.email = some user)
    (h : initiateEmailVerification env st now newID rawToken req = .ok st3) :
    ∃ st2,
      (∀ x ∈ st2, ∃ y ∈ st, x.id = y.id ∧ x.userID = y.userID ∧ x.subject = y.subject ∧
        x.tokenHash = y.tokenHash ∧ x.expiresAt = y.expiresAt) ∧
      (∀ x ∈ st2, ∀ t ∈ st, (t.userID = some user.id ∧ t.subject = .emailVerification) →
        x.id ≠ t.id) ∧
      st3 = st2 ++ [mintedToken user.id user.email now newID (env.hashFn rawToken)
        req.redirectTo] := by
  unfold initiateEmailVerification at h
  rw [hu] at h
  dsimp only at h
  split at h
  · cases h
  · next hver =>
    cases hex : st.find? (fun t =>
        t.userID = some user.id && t.subject = .emailVerification &&
          decide (now < t.expiresAt)) with
    | none =>
      rw [hex] at h
      dsimp only at h
      split at h
      · cases h
      · next st2v hd =>
        split at h
        · cases h
          refine ⟨st2v, ?_, ?_, rfl⟩
          · intro x hx
            obtain ⟨hmem, _⟩ := deleteTokensLoop_ok st user.id st st2v hd x hx
            exact ⟨x, hmem, rfl, rfl, rfl, rfl, rfl⟩
          · intro x hx t ht hp
            exact (deleteTokensLoop_ok st user.id st st2v hd x hx).2 t ht hp
        · cases h
    | some e =>
      rw [hex] at h
      dsimp only at h
      split at h
      · cases h
      · next st2v hd =>
        split at h
        · cases h
          refine ⟨st2v, ?_, ?_, rfl⟩
          · intro x hx
            obtain ⟨hmem, _⟩ := deleteTokensLoop_ok st user.id _ st2v hd x hx
            obtain ⟨y, hy, hxy⟩ := List.mem_map.mp hmem
            refine ⟨y, hy, ?_⟩
            by_cases hid : y.id = e.id
            · rw [← hxy]
              simp [hid]
            · rw [← hxy]
              simp [hid]
          · intro x hx t ht hp
            exact (deleteTokensLoop_ok st user.id _ st2v hd x hx).2 t ht hp
        · cases h

/-- C6: every completed InitiateEmailVerification call retires each prior
(user, email_verification) token before persisting the fresh one, so at
completion at most one active token exists for that pair. -/
theorem initiate_at_most_one_active (env : InitiateEnv) (st : List OneTimeToken)
    (now : Instant) (newID : Uuid) (rawToken : String)
    (req : InitiateEmailVerificationRequest) (st3 : List OneTimeToken) (user : UserEntity)
    (hu : env.getUserByEmail req.email = some user)
    (h : initiateEmailVerification env st now newID rawToken req = .ok st3) :
    (activeTokensFor st3 user.id now).length ≤ 1 := by
  obtain ⟨st2, hfields, havoid, rfl⟩ :=
    initiate_ok_shape env st now newID rawToken req st3 user hu h
  unfold activeTokensFor
  rw [List.filter_append]
  have h1 : st2.filter (fun t =>
      t.userID = some user.id && t.subject = .emailVerification &&
        decide (now < t.expiresAt)) = [] := by
    rw [List.filter_eq_nil_iff]
    intro x hx hpx
    simp only [Bool.and_eq_true, decide_eq_true_eq] at hpx
    obtain ⟨y, hy, hid, huid, _, _, _⟩ := hfields x hx
    refine havoid x hx y hy ⟨?_, ?_⟩ hid
    · rw [← huid]
      exact hpx.1.1
    · cases hsy : y.subject
      rfl
  rw [h1, List.nil_append]
  exact List.length_filter_le _ _

/-- C6 witness: re-issuing over a store that already holds an active token
for the pair leaves exactly one active token. -/
theorem initiate_at_most_one_active_witness :
    (activeTokensFor [mintedToken "u1" "a@b.com" 0 "tid2" (demoHashFn "raw2") ""]
      "u1" 0).length ≤ 1 :=
  initiate_at_most_one_active
    { getUserByEmail := fun e =>
        if e = "a@b.com" then some { id := "u1", email := "a@b.com" } else none,
      hashFn := demoHashFn, mailOk := true }
    [demoOtt] 0 "tid2" "raw2" ⟨"a@b.com", ""⟩ _ { id := "u1", email := "a@b.com" }
    rfl (by rfl)

/-! ## C7: one-time-token TTL boundary -/

theorem mintedToken_expiresAt (uid : Uuid) (email : String) (now : Instant)
    (newID : Uuid) (th rd : String) :
    (mintedToken uid email now newID th rd).expiresAt = now + 15 * 60 := rfl

theorem mintedToken_userID (uid : Uuid) (email : String) (now : Instant)
    (newID : Uuid) (th rd : String) :
    (mintedToken uid email now newID th rd).userID = some uid := rfl

theorem find?_append_first_none (l1 l2 : List OneTimeToken) (p : OneTimeToken → Bool)
    (h : ∀ x ∈ l1, p x = false) : (l1 ++ l2).find? p = l2.find? p := by
  induction l1 with
  | nil => rfl
  | cons a l ih =>
    rw [List.cons_append,
      List.find?_cons_of_neg _ (by simp [h a (List.mem_cons_self _ _)])]
    exact ih (fun x hx => h x (List.mem_cons_of_mem _ hx))

/-- C7: a one-time token issued at instant t gets expires_at = t + 15
minutes, and validating the correct raw secret passes the expiry check at
any instant strictly before t + 15m while failing with the Unauthorized
expired error at any instant strictly after t + 15m. -/
theorem one_time_token_ttl (env : InitiateEnv) (st : List OneTimeToken) (now : Instant)
    (newID : Uuid) (rawToken : String) (req : InitiateEmailVerificationRequest)
    (st3 : List OneTimeToken) (user : UserEntity) (v : Instant)
    (hu : env.getUserByEmail req.email = some user)
    (h : initiateEmailVerification env st now newID rawToken req = .ok st3)
    (hfresh : ∀ x ∈ st, x.tokenHash ≠ env.hashFn rawToken) :
    (∃ tok, resolveOneTimeToken (env.hashFn rawToken) st3 = some tok ∧
      tok.expiresAt = now + 15 * 60 ∧ tok.userID = some user.id) ∧
    (v < now + 15 * 60 →
      (validateEmailVerification env.hashFn st3 v false false rawToken).1 = .ok ()) ∧
    (now + 15 * 60 < v →
      (validateEmailVerification env.hashFn st3 v false false rawToken).1 =
        .error (.fiberErr 401 "one time token is expired")) := by
  obtain ⟨st2, hfields, _, rfl⟩ :=
    initiate_ok_shape env st now newID rawToken req st3 user hu h
  have hres : resolveOneTimeToken (env.hashFn rawToken)
      (st2 ++ [mintedToken user.id user.email now newID (env.hashFn rawToken)
        req.redirectTo]) =
      some (mintedToken user.id user.email now newID (env.hashFn rawToken)
        req.redirectTo) := by
    unfold resolveOneTimeToken
    rw [find?_append_first_none]
    · rw [List.find?_cons_of_pos _ (by simp [mintedToken])]
    · intro x hx
      obtain ⟨y, hy, _, _, _, hhash, _⟩ := hfields x hx
      simp only [decide_eq_false_iff_not]
      rw [hhash]
      exact hfresh y hy
  refine ⟨⟨_, hres, rfl, rfl⟩, ?_, ?_⟩
  · intro hv
    have hne : ¬ (now + 15 * 60 < v) := lt_asymm hv
    simp only [validateEmailVerification, hres, mintedToken_expiresAt, mintedToken_userID,
      if_neg hne]
    rfl
  · intro hv
    simp only [validateEmailVerification, hres, mintedToken_expiresAt, mintedToken_userID,
      if_pos hv]

/-- C7 witness: the spec boundary, a token minted at instant 0 validated
at 899 seconds (14m59s) and at 901 seconds (15m1s). -/
theorem one_time_token_ttl_witness :
    (validateEmailVerification demoHashFn
        [mintedToken "u1" "a@b.com" 0 "tid2" (demoHashFn "raw2") ""] 899 false false
        "raw2").1 = .ok () ∧
    (validateEmailVerification demoHashFn
        [mintedToken "u1" "a@b.com" 0 "tid2" (demoHashFn "raw2") ""] 901 false false
        "raw2").1 = .error (.fiberErr 401 "one time token is expired") := by
  constructor
  · exact (one_time_token_ttl
      { getUserByEmail := fun e =>
          if e = "a@b.com" then some { id := "u1", email := "a@b.com" } else none,
        hashFn := demoHashFn, mailOk := true }
      [] 0 "tid2" "raw2" ⟨"a@b.com", ""⟩ _ { id := "u1", email := "a@b.com" } 899
      rfl (by rfl) (fun x hx => absurd hx (List.not_mem_nil x))).2.1 (by decide)
  · exact (one_time_token_ttl
      { getUserByEmail := fun e =>
          if e = "a@b.com" then some { id := "u1", email := "a@b.com" } else none,
        hashFn := demoHashFn, mailOk := true }
      [] 0 "tid2" "raw2" ⟨"a@b.com", ""⟩ _ { id := "u1", email := "a@b.com" } 901
      rfl (by rfl) (fun x hx => absurd hx (List.not_mem_nil x))).2.2 (by decide)

/-! ## C9: the middleware token-type guard -/

theorem signClaims_type_none (cfg : JWTConfig) (now : Instant)
    (payload : List (String × CVal)) (subject : String)
    (h : ∀ kv ∈ payload, kv.1 ≠ "type") :
    getClaim (signClaims cfg now payload subject) "type" = none := by
  unfold signClaims
  rw [getClaim_payload_foldl_ne _ _ _ h]
  by_cases hs : subject ≠ ""
  · rw [if_pos hs, getClaim_tokenSet_ne _ _ _ _ (by decide),
      getClaim_tokenSet_ne _ _ _ _ (by decide)]
    rw [show tokenSet (tokenSet (tokenSet [] "iss" (.str cfg.issuer)) "iat" (.time now))
          "exp" (.dur cfg.accessTokenExpiry) =
        tokenSet (tokenSet [] "iss" (.str cfg.issuer)) "iat" (.time now) from rfl]
    rw [getClaim_tokenSet_ne _ _ _ _ (by decide), getClaim_tokenSet_ne _ _ _ _ (by decide)]
    rfl
  · rw [if_neg hs, getClaim_tokenSet_ne _ _ _ _ (by decide)]
    rw [show tokenSet (tokenSet (tokenSet [] "iss" (.str cfg.issuer)) "iat" (.time now))
          "exp" (.dur cfg.accessTokenExpiry) =
        tokenSet (tokenSet [] "iss" (.str cfg.issuer)) "iat" (.time now) from rfl]
    rw [getClaim_tokenSet_ne _ _ _ _ (by decide), getClaim_tokenSet_ne _ _ _ _ (by decide)]
    rfl

/-- C9 (amended): the middleware reads claim key "type" while the codec
writes its discriminator under "typ", so for every token whose payload
does not itself carry a "type" field -- in particular the repository's
access-token payload and every refresh token -- the middleware's
"token is not an access token" rejection branch cannot fire; consequently
a valid unexpired refresh token is accepted by JWTMiddleware as if it were
an access token. -/
theorem middleware_type_branch_unreachable (cfg : JWTConfig) (now v : Instant)
    (payload : List (String × CVal)) (subject uid audience jti : String)
    (tokA tokR : SignedToken)
    (hA : sign cfg now payload subject = .ok tokA)
    (hR : generateRefreshTokenJWT cfg now uid audience jti = .ok tokR)
    (hpay : ∀ kv ∈ payload, kv.1 ≠ "type")
    (hiat : now ≤ v) (hexp : v < now + cfg.refreshTokenExpiry) :
    jwtMiddlewareCheck cfg.secretKey v tokA ≠
      .error (.fiberErr 401 "token is not an access token") ∧
    getClaim tokR.claims "typ" = some (.str "refresh") ∧
    jwtMiddlewareCheck cfg.secretKey v tokR = .ok tokR.claims := by
  unfold sign at hA
  split at hA
  · cases hA
  · next hkey =>
    cases hA
    unfold generateRefreshTokenJWT at hR
    rw [if_neg hkey] at hR
    cases hR
    refine ⟨?_, rfl, ?_⟩
    · unfold jwtMiddlewareCheck parseAndValidate
      rw [if_neg (by simp)]
      by_cases hval : claimsTimeValid (signClaims cfg now payload subject) v = true
      · rw [if_pos hval]
        have hrej : middlewareTypeRejects (signClaims cfg now payload subject) = false := by
          unfold middlewareTypeRejects
          rw [signClaims_type_none cfg now payload subject hpay]
        simp [hrej]
      · rw [if_neg hval]
        intro hcon
        injection hcon with h1
        injection h1 with h2 h3
        exact absurd h3 (by decide)
    · unfold jwtMiddlewareCheck parseAndValidate
      rw [if_neg (by simp)]
      have hval : claimsTimeValid
          (refreshClaims cfg now uid audience jti) v = true := by
        unfold claimsTimeValid
        rw [show getClaim (refreshClaims cfg now uid audience jti) "exp" =
            some (.time (now + cfg.refreshTokenExpiry)) from rfl]
        rw [show getClaim (refreshClaims cfg now uid audience jti) "iat" =
            some (.time now) from rfl]
        rw [show getClaim (refreshClaims cfg now uid audience jti) "nbf" = none from rfl]
        simp [hexp, hiat]
      rw [if_pos hval]
      have hrej : middlewareTypeRejects (refreshClaims cfg now uid audience jti) = false := by
        unfold middlewareTypeRejects
        rw [show getClaim (refreshClaims cfg now uid audience jti) "type" = none from rfl]
      simp [hrej]

/-- C9 witness: at a concrete secret, an unexpired refresh token passes
the middleware and the access token avoids the rejection branch. -/
theorem middleware_type_branch_unreachable_witness :
    jwtMiddlewareCheck [1] 5
      ⟨[("user_id", CVal.str "u1"), ("sub", CVal.str "u1"), ("typ", CVal.str "access"),
        ("iat", CVal.time 0), ("iss", CVal.str "neatspace")], [1]⟩ ≠
      .error (.fiberErr 401 "token is not an access token") ∧
    getClaim ([("jti", CVal.str "rid1"), ("typ", CVal.str "refresh"),
      ("aud", CVal.str "client-app"), ("sub", CVal.str "u1"), ("exp", CVal.time 604800),
      ("iat", CVal.time 0), ("iss", CVal.str "neatspace")] : Claims) "typ" =
      some (.str "refresh") ∧
    jwtMiddlewareCheck [1] 5
      ⟨[("jti", CVal.str "rid1"), ("typ", CVal.str "refresh"),
        ("aud", CVal.str "client-app"), ("sub", CVal.str "u1"), ("exp", CVal.time 604800),
        ("iat", CVal.time 0), ("iss", CVal.str "neatspace")], [1]⟩ =
      .ok [("jti", CVal.str "rid1"), ("typ", CVal.str "refresh"),
        ("aud", CVal.str "client-app"), ("sub", CVal.str "u1"), ("exp", CVal.time 604800),
        ("iat", CVal.time 0), ("iss", CVal.str "neatspace")] :=
  middleware_type_branch_unreachable ⟨[1], 900, 604800, "neatspace"⟩ 0 5
    [("user_id", CVal.str "u1")] "u1" "u1" "client-app" "rid1"
    ⟨[("user_id", CVal.str "u1"), ("sub", CVal.str "u1"), ("typ", CVal.str "access"),
      ("iat", CVal.time 0), ("iss", CVal.str "neatspace")], [1]⟩
    ⟨[("jti", CVal.str "rid1"), ("typ", CVal.str "refresh"),
      ("aud", CVal.str "client-app"), ("sub", CVal.str "u1"), ("exp", CVal.time 604800),
      ("iat", CVal.time 0), ("iss", CVal.str "neatspace")], [1]⟩
    rfl rfl (by decide) (by decide) (by decide)

/-- C9 counterexample to the claim as stated: a token minted by Sign with
a payload field named "type" does reach the rejection branch, so the
branch is not unreachable for every codec-minted token. -/
theorem middleware_type_branch_cex :
    sign ⟨[1], 900, 604800, "neatspace"⟩ 0 [("type", CVal.str "refresh")] "u1" =
      .ok ⟨[("type", CVal.str "refresh"), ("sub", CVal.str "u1"),
            ("typ", CVal.str "access"), ("iat", CVal.time 0),
            ("iss", CVal.str "neatspace")], [1]⟩ ∧
    jwtMiddlewareCheck [1] 0
      ⟨[("type", CVal.str "refresh"), ("sub", CVal.str "u1"), ("typ", CVal.str "access"),
        ("iat", CVal.time 0), ("iss", CVal.str "neatspace")], [1]⟩ =
      .error (.fiberErr 401 "token is not an access token") := ⟨rfl, rfl⟩

end Neatspace
